import Mathlib

/-
Verification development for the node-systray controller (src/index.ts).
The data model, the checked-state rendering rule, the wire encoding, the
line-handling paths and the process-lifecycle operations are shallowly
embedded below, translated from the TypeScript source. Behaviour of the
platform runtime (JSON.parse, JSON.stringify, Node child_process and
readline) is modelled from its documented semantics where the source
relies on it.
-/

namespace NodeSystray

/-- Values of the `process.platform` global that the source inspects. -/
inductive Platform where
  | linux
  | darwin
  | win32
  | other
deriving DecidableEq, Repr

/-- MenuItem record from the source (title, tooltip, checked, enabled). -/
structure MenuItem where
  title : String
  tooltip : String
  checked : Bool
  enabled : Bool
deriving DecidableEq, Repr

/-- Menu record from the source (icon, title, tooltip, items). -/
structure Menu where
  icon : String
  title : String
  tooltip : String
  items : List MenuItem
deriving DecidableEq, Repr

/-- Outbound Action union from the source, with the tag values
update-item, update-menu and update-menu-and-item. -/
inductive Action where
  | updateItem (item : MenuItem) (seq : Int)
  | updateMenu (menu : Menu) (seq : Int)
  | updateMenuAndItem (menu : Menu) (item : MenuItem) (seq : Int)
deriving DecidableEq, Repr

/-- The marker string CHECK_STR that the source appends for checked items. -/
def CHECK_STR : String := " (√)"

/-- The pattern actually matched by the expression RegExp(CHECK_STR + "$")
in the source. In the regular expression text " (√)$" the parentheses form
a capture group around the check mark, so the pattern matches a trailing
" √" (a space followed by the check mark), not the literal marker " (√)". -/
def STRIP_PATTERN : String := " √"

/-- Whether the string s ends with the string pat, character-wise. -/
def strEndsWith (s pat : String) : Bool :=
  pat.data.reverse.isPrefixOf s.data.reverse

/-- The string s without its last n characters. -/
def strDropRight (s : String) (n : Nat) : String :=
  String.mk (s.data.take (s.data.length - n))

/-- Embedding of updateCheckedInLinux (index.ts lines 119-129): on
platforms other than linux the item is returned untouched; on linux, when
checked, CHECK_STR is appended to the title unconditionally; when not
checked, one trailing occurrence of STRIP_PATTERN (what the unescaped
regular expression really matches) is removed from the title if present. -/
def updateCheckedInLinux (platform : Platform) (item : MenuItem) : MenuItem :=
  if platform ≠ Platform.linux then
    item
  else if item.checked then
    { item with title := item.title ++ CHECK_STR }
  else
    { item with title :=
        if strEndsWith item.title STRIP_PATTERN then
          strDropRight item.title STRIP_PATTERN.data.length
        else
          item.title }

/-- Calling convention of updateCheckedInLinux: the source returns the very
object it received, after assigning to its title field on linux. The first
component is the returned value, the second is what the caller sees in its
own item binding after the call (the same object, hence the same value). -/
def updateCheckedInLinuxCall (platform : Platform) (item : MenuItem) :
    MenuItem × MenuItem :=
  (updateCheckedInLinux platform item, updateCheckedInLinux platform item)

/-- Opening brace character of the wire text. -/
def lb : String := "\x7b"

/-- Closing brace character of the wire text. -/
def rb : String := "\x7d"

/-- Lowercase hexadecimal digit, used by the string escaper. -/
def hexDigit (n : Nat) : Char :=
  if n < 10 then Char.ofNat (48 + n) else Char.ofNat (87 + n)

/-- Escaping JSON.stringify applies to one character of a string value:
quote and backslash are escaped, the named control escapes are used for
backspace, tab, newline, form feed and carriage return, remaining control
characters become a \u00xx escape, and every other character (including
non-ASCII such as the check mark) is emitted verbatim. -/
def escapeChar (c : Char) : String :=
  if c = '"' then "\\\""
  else if c = '\\' then "\\\\"
  else if c = '\x08' then "\\b"
  else if c = '\x09' then "\\t"
  else if c = '\x0a' then "\\n"
  else if c = '\x0c' then "\\f"
  else if c = '\x0d' then "\\r"
  else if c.toNat < 32 then
    "\\u00" ++ String.mk [hexDigit (c.toNat / 16), hexDigit (c.toNat % 16)]
  else
    String.singleton c

/-- Concatenation of a list of strings. -/
def strConcat : List String → String
  | [] => ""
  | x :: xs => x ++ strConcat xs

/-- Comma-separated concatenation, as Array.prototype.join inside
JSON.stringify produces for array elements. -/
def strJoinComma : List String → String
  | [] => ""
  | [x] => x
  | x :: xs => x ++ "," ++ strJoinComma xs

/-- JSON.stringify of a string value. -/
def encodeString (s : String) : String :=
  "\"" ++ strConcat (s.data.map escapeChar) ++ "\""

/-- JSON.stringify of a boolean value. -/
def encodeBool (b : Bool) : String :=
  if b then "true" else "false"

/-- JSON.stringify of a MenuItem, with keys in the declaration order of the
source literals: title, tooltip, checked, enabled. -/
def encodeMenuItem (i : MenuItem) : String :=
  lb ++ "\"title\":" ++ encodeString i.title
     ++ ",\"tooltip\":" ++ encodeString i.tooltip
     ++ ",\"checked\":" ++ encodeBool i.checked
     ++ ",\"enabled\":" ++ encodeBool i.enabled ++ rb

/-- JSON.stringify of a Menu, with keys icon, title, tooltip, items. -/
def encodeMenu (m : Menu) : String :=
  lb ++ "\"icon\":" ++ encodeString m.icon
     ++ ",\"title\":" ++ encodeString m.title
     ++ ",\"tooltip\":" ++ encodeString m.tooltip
     ++ ",\"items\":[" ++ strJoinComma (m.items.map encodeMenuItem)
     ++ "]" ++ rb

/-- JSON.stringify of an Action object, with keys in the order of the
Action literals: type, then item and/or menu, then seq_id. -/
def encodeAction : Action → String
  | Action.updateItem item s =>
      lb ++ "\"type\":\"update-item\",\"item\":" ++ encodeMenuItem item
         ++ ",\"seq_id\":" ++ toString s ++ rb
  | Action.updateMenu m s =>
      lb ++ "\"type\":\"update-menu\",\"menu\":" ++ encodeMenu m
         ++ ",\"seq_id\":" ++ toString s ++ rb
  | Action.updateMenuAndItem m item s =>
      lb ++ "\"type\":\"update-menu-and-item\",\"menu\":" ++ encodeMenu m
         ++ ",\"item\":" ++ encodeMenuItem item
         ++ ",\"seq_id\":" ++ toString s ++ rb

/-- Faults the runtime can raise inside the engine: a JSON.parse
SyntaxError, or a TypeError (invoking the undefined result of the debug
call, or reading a property of null). -/
inductive JsError where
  | parseFail
  | typeFault
deriving DecidableEq, Repr

/-- Embedding of writeLine (index.ts lines 174-180). The guard is the JS
truthiness of the string argument, which for strings is plain
non-emptiness, checked before any trimming. Inside the guard the source
has no semicolon after the debug call and the next line begins with an
opening parenthesis, so the two lines parse as a single expression: the
result of the debug call, which is undefined, is itself invoked on the
child process object. Every truthy argument therefore throws a TypeError
before stdin.write is ever evaluated, and nothing is written; a falsy
(empty) argument skips the guard body and writes nothing either. The ok
value lists the chunks written to the child input stream. -/
def writeLine (line : String) : Except JsError (List String) :=
  if line = "" then Except.ok [] else Except.error JsError.typeFault

/-- The rewriting sendAction (index.ts lines 182-198) performs on its
argument before encoding: the checked rule is applied to the item of
update-item, to every menu item of update-menu, and to both for
update-menu-and-item. -/
def sendActionTransform (platform : Platform) : Action → Action
  | Action.updateItem item s =>
      Action.updateItem (updateCheckedInLinux platform item) s
  | Action.updateMenu m s =>
      Action.updateMenu
        { m with items := m.items.map (updateCheckedInLinux platform) } s
  | Action.updateMenuAndItem m item s =>
      Action.updateMenuAndItem
        { m with items := m.items.map (updateCheckedInLinux platform) }
        (updateCheckedInLinux platform item) s

/-- Embedding of sendAction: the switch rewrites the action first, then
the encoded text is handed to writeLine. The pair holds the rewritten
action and the outcome of the write; since the encoded text is never
empty, the write always throws the TypeError described at writeLine. -/
def sendAction (platform : Platform) (a : Action) :
    Action × Except JsError (List String) :=
  let a2 := sendActionTransform platform a
  (a2, writeLine (encodeAction a2))

/-- JSON value, the result shape of JSON.parse. Numbers keep their source
lexeme, which is all the protocol needs (seq_id values are compared as
round-tripped tokens). -/
inductive JVal where
  | null
  | bool (b : Bool)
  | num (lex : String)
  | str (s : String)
  | arr (elems : List JVal)
  | obj (fields : List (String × JVal))

/-- JSON whitespace. -/
def isJsonWs (c : Char) : Bool :=
  c = ' ' || c = '\t' || c = '\n' || c = '\r'

/-- Drop leading JSON whitespace. -/
def skipWs : List Char → List Char
  | [] => []
  | c :: cs => if isJsonWs c then skipWs cs else c :: cs

/-- Value of a hexadecimal digit character. -/
def hexVal (c : Char) : Option Nat :=
  if c.isDigit then some (c.toNat - 48)
  else if 'a' ≤ c ∧ c ≤ 'f' then some (c.toNat - 87)
  else if 'A' ≤ c ∧ c ≤ 'F' then some (c.toNat - 55)
  else none

/-- Match a literal character sequence, returning the rest on success. -/
def dropLit : List Char → List Char → Option (List Char)
  | [], cs => some cs
  | _ :: _, [] => none
  | p :: ps, c :: cs => if p = c then dropLit ps cs else none

/-- Body of a JSON string after the opening quote: handles the escape
sequences JSON.parse accepts and rejects raw control characters. A \u
escape becomes the code point of its four hex digits (surrogate pairing is
not combined; no input in this development uses \u escapes). -/
def parseStringBody : Nat → List Char → List Char → Option (String × List Char)
  | 0, _, _ => none
  | _ + 1, [], _ => none
  | fuel + 1, c :: cs, acc =>
    if c = '"' then some (String.mk acc.reverse, cs)
    else if c = '\\' then
      match cs with
      | [] => none
      | e :: cs2 =>
        if e = '"' then parseStringBody fuel cs2 ('"' :: acc)
        else if e = '\\' then parseStringBody fuel cs2 ('\\' :: acc)
        else if e = '/' then parseStringBody fuel cs2 ('/' :: acc)
        else if e = 'b' then parseStringBody fuel cs2 ('\x08' :: acc)
        else if e = 'f' then parseStringBody fuel cs2 ('\x0c' :: acc)
        else if e = 'n' then parseStringBody fuel cs2 ('\x0a' :: acc)
        else if e = 'r' then parseStringBody fuel cs2 ('\x0d' :: acc)
        else if e = 't' then parseStringBody fuel cs2 ('\x09' :: acc)
        else if e = 'u' then
          match cs2 with
          | h1 :: h2 :: h3 :: h4 :: cs3 =>
            match hexVal h1, hexVal h2, hexVal h3, hexVal h4 with
            | some a, some b, some c2, some d =>
                parseStringBody fuel cs3
                  (Char.ofNat (((a * 16 + b) * 16 + c2) * 16 + d) :: acc)
            | _, _, _, _ => none
          | _ => none
        else none
    else if c.toNat < 32 then none
    else parseStringBody fuel cs (c :: acc)

/-- Longest prefix of decimal digits and the remainder. -/
def takeDigits : List Char → List Char × List Char
  | [] => ([], [])
  | c :: cs =>
    if c.isDigit then
      let p := takeDigits cs
      (c :: p.1, p.2)
    else
      ([], c :: cs)

/-- Lexeme of a JSON number (sign, integer part, optional fraction and
exponent), returning the consumed characters and the remainder. A malformed
tail (such as a bare dot) is left unconsumed, so overall parsing fails on
it exactly where JSON.parse reports a syntax error. -/
def parseNumberLex (cs : List Char) : Option (List Char × List Char) :=
  let sgn : List Char × List Char :=
    match cs with
    | '-' :: t => (['-'], t)
    | _ => ([], cs)
  match sgn.2 with
  | [] => none
  | c :: t =>
    if c.isDigit then
      let ip : List Char × List Char :=
        if c = '0' then (['0'], t) else takeDigits sgn.2
      let fp : List Char × List Char :=
        match ip.2 with
        | '.' :: t2 =>
          match t2 with
          | d :: _ =>
            if d.isDigit then
              let p := takeDigits t2
              ('.' :: p.1, p.2)
            else ([], ip.2)
          | [] => ([], ip.2)
        | _ => ([], ip.2)
      let ep : List Char × List Char :=
        match fp.2 with
        | e :: t3 =>
          if e = 'e' ∨ e = 'E' then
            match t3 with
            | s :: t4 =>
              if s = '+' ∨ s = '-' then
                match t4 with
                | d :: _ =>
                  if d.isDigit then
                    let p := takeDigits t4
                    (e :: s :: p.1, p.2)
                  else ([], fp.2)
                | [] => ([], fp.2)
              else if s.isDigit then
                let p := takeDigits t3
                (e :: p.1, p.2)
              else ([], fp.2)
            | [] => ([], fp.2)
          else ([], fp.2)
        | [] => ([], fp.2)
      some (sgn.1 ++ ip.1 ++ fp.1 ++ ep.1, ep.2)
    else none

mutual

/-- Recursive-descent JSON value parser (grammar of JSON.parse), fueled to
satisfy the termination checker; the fuel passed by jsonParse is enough for
every input because nesting consumes at least one character per level. -/
def parseVal : Nat → List Char → Option (JVal × List Char)
  | 0, _ => none
  | _ + 1, [] => none
  | fuel + 1, c :: cs =>
    if c = '"' then
      match parseStringBody (cs.length + 1) cs [] with
      | some (s, rest) => some (JVal.str s, rest)
      | none => none
    else if c = '\x7b' then
      parseObjBody fuel true (skipWs cs) []
    else if c = '[' then
      parseArrBody fuel true (skipWs cs) []
    else if c = 't' then
      match dropLit ['r', 'u', 'e'] cs with
      | some rest => some (JVal.bool true, rest)
      | none => none
    else if c = 'f' then
      match dropLit ['a', 'l', 's', 'e'] cs with
      | some rest => some (JVal.bool false, rest)
      | none => none
    else if c = 'n' then
      match dropLit ['u', 'l', 'l'] cs with
      | some rest => some (JVal.null, rest)
      | none => none
    else
      match parseNumberLex (c :: cs) with
      | some (lex, rest) => some (JVal.num (String.mk lex), rest)
      | none => none

/-- Members of a JSON object; closeOk is false directly after a comma, so a
trailing comma is rejected as JSON.parse rejects it. -/
def parseObjBody : Nat → Bool → List Char → List (String × JVal) →
    Option (JVal × List Char)
  | 0, _, _, _ => none
  | _ + 1, _, [], _ => none
  | fuel + 1, closeOk, c :: cs, acc =>
    if c = '\x7d' then
      if closeOk then some (JVal.obj acc.reverse, cs) else none
    else if c = '"' then
      match parseStringBody (cs.length + 1) cs [] with
      | none => none
      | some (k, r1) =>
        match skipWs r1 with
        | ':' :: r2 =>
          match parseVal fuel (skipWs r2) with
          | none => none
          | some (v, r3) =>
            match skipWs r3 with
            | '\x7d' :: r4 => some (JVal.obj ((k, v) :: acc).reverse, r4)
            | ',' :: r4 => parseObjBody fuel false (skipWs r4) ((k, v) :: acc)
            | _ => none
        | _ => none
    else none

/-- Elements of a JSON array; closeOk is false directly after a comma. -/
def parseArrBody : Nat → Bool → List Char → List JVal →
    Option (JVal × List Char)
  | 0, _, _, _ => none
  | _ + 1, _, [], _ => none
  | fuel + 1, closeOk, c :: cs, acc =>
    if c = ']' then
      if closeOk then some (JVal.arr acc.reverse, cs) else none
    else
      match parseVal fuel (c :: cs) with
      | none => none
      | some (v, r1) =>
        match skipWs r1 with
        | ']' :: r2 => some (JVal.arr (v :: acc).reverse, r2)
        | ',' :: r2 => parseArrBody fuel false (skipWs r2) (v :: acc)
        | _ => none

end

/-- Model of JSON.parse: none is a thrown SyntaxError. The whole input must
be consumed apart from surrounding whitespace. -/
def jsonParse (s : String) : Option JVal :=
  match parseVal (s.length + 2) (skipWs s.data) with
  | some (v, rest) => if (skipWs rest).isEmpty then some v else none
  | none => none

/-- Last-wins field lookup, matching JS object construction where a later
duplicate key overwrites an earlier one. -/
def jLookup (fs : List (String × JVal)) (k : String) : Option JVal :=
  match fs with
  | [] => none
  | kv :: rest =>
    match jLookup rest k with
    | some r => some r
    | none => if kv.1 = k then some kv.2 else none

/-- JS property read on a JSON.parse result: reading .type of null throws
a TypeError; objects look the key up; every other value yields undefined. -/
def jsProp (v : JVal) (k : String) : Except JsError (Option JVal) :=
  match v with
  | JVal.null => Except.error JsError.typeFault
  | JVal.obj fs => Except.ok (jLookup fs k)
  | _ => Except.ok none

/-- Strict equality of a possibly-undefined property with a string literal,
as in the comparisons of onReady and onClick. -/
def jIsStr (v : Option JVal) (s : String) : Bool :=
  match v with
  | some (JVal.str t) => t = s
  | _ => false

/-- Menu held by the constructed controller: the constructor (index.ts
line 147) maps updateCheckedInLinux over the initial menu items. -/
def constructedMenu (platform : Platform) (menu : Menu) : Menu :=
  { menu with items := menu.items.map (updateCheckedInLinux platform) }

/-- The bootstrap listener the constructor registers through onReady
(index.ts line 149): writeLine of JSON.stringify of the menu. The encoded
menu is never the empty string, so this call always throws the writeLine
TypeError and never emits anything. -/
def bootstrapListener (menu : Menu) : Except JsError (List String) :=
  writeLine (encodeMenu menu)

/-- Line handler registered by onReady (index.ts lines 152-161), here with
the bootstrap listener plugged in: JSON.parse the line (an exception
escapes uncaught), read .type, and when it equals ready run the listener
(whose own exception also escapes uncaught). The ok value lists the chunks
the listener wrote. -/
def readyLineHandler (menu : Menu) (line : String) :
    Except JsError (List String) :=
  match jsonParse line with
  | none => Except.error JsError.parseFail
  | some v => do
      let t ← jsProp v "type"
      if jIsStr t "ready" then bootstrapListener menu else pure []

/-- Line handler registered by onClick (index.ts lines 163-172): JSON.parse
the line (an exception escapes uncaught), read .type, and when it equals
clicked pass the parsed object to the listener. The ok value is the event
handed to the listener, if any. -/
def clickLineHandler (line : String) : Except JsError (Option JVal) :=
  match jsonParse line with
  | none => Except.error JsError.parseFail
  | some v => do
      let t ← jsProp v "type"
      if jIsStr t "clicked" then pure (some v) else pure none

/-- One inbound line processed by the built-in handlers of a freshly
constructed controller: the debug logger writes nothing to the child, the
bootstrap ready listener may write the menu. An uncaught exception aborts
the session. -/
def processLine (menu : Menu) (out : List String) (line : String) :
    Except JsError (List String) := do
  let w ← readyLineHandler menu line
  pure (out ++ w)

/-- Feed a list of inbound lines through processLine in order, stopping at
the first uncaught exception, and collect everything written to the child
input stream. -/
def runLines (menu : Menu) (out : List String) :
    List String → Except JsError (List String)
  | [] => Except.ok out
  | line :: rest =>
    match processLine menu out line with
    | Except.ok out2 => runLines menu out2 rest
    | Except.error e => Except.error e

/-- A whole session of a freshly constructed controller over the given
inbound lines: the constructor maps the checked rule over the initial menu,
then the lines are handled in arrival order. -/
def runSession (platform : Platform) (menu : Menu) (lines : List String) :
    Except JsError (List String) :=
  runLines (constructedMenu platform menu) [] lines

/-- Observable state of the child process session. signalSent models the
killed flag of the Node ChildProcess object, which is set exactly when a
kill call successfully delivers a signal; exited records that the exit
event has been observed; rlClosed records that the readline subscription
was closed; exitListeners counts listeners registered on exit. -/
structure ProcState where
  signalSent : Bool
  exited : Bool
  rlClosed : Bool
  exitListeners : Nat
deriving DecidableEq, Repr

/-- State right after the constructor spawned the child. -/
def spawnState : ProcState := ProcState.mk false false false 0

/-- State after kill (index.ts lines 203-209) runs: when exitNode is true a
process-exiting listener is registered first; rl.close() is idempotent per
the readline contract; ChildProcess.kill() delivers a signal only while the
handle is live (it returns false without throwing once the child exited),
and sets the killed flag exactly on successful delivery. -/
def killResult (exitNode : Bool) (st : ProcState) : ProcState :=
  { st with
      rlClosed := true
      signalSent := st.signalSent || !st.exited
      exitListeners := if exitNode then st.exitListeners + 1 else st.exitListeners }

/-- Embedding of kill: per the Node contracts above no step throws, so the
call always succeeds, whatever the state of the child. -/
def kill (exitNode : Bool) (st : ProcState) : Except JsError ProcState :=
  Except.ok (killResult exitNode st)

/-- The child exit event is observed (delivered to onExit listeners). -/
def observeExit (st : ProcState) : ProcState :=
  { st with exited := true }

/-- Embedding of the killed getter (index.ts lines 222-224): it returns the
killed flag of the Node ChildProcess object. -/
def killed (st : ProcState) : Bool :=
  st.signalSent

/-- Truth of an Except being a success. -/
def isOkB {α : Type} (e : Except JsError α) : Bool :=
  match e with
  | Except.ok _ => true
  | Except.error _ => false

/-- What a method call evaluates to as a JS reference: the receiver object
itself, or some other object. -/
inductive JsRef where
  | this
  | fresh
deriving DecidableEq, Repr

/-- Observable state of a SysTray controller for the chaining claims:
counts of registered listeners and the chunks written to the child. -/
structure SysTrayState where
  readyListeners : Nat
  clickListeners : Nat
  out : List String
deriving DecidableEq, Repr

/-- Method onReady: registers one more line listener and returns this. -/
def onReadyM (st : SysTrayState) : SysTrayState × JsRef :=
  ({ st with readyListeners := st.readyListeners + 1 }, JsRef.this)

/-- Method onClick: registers one more line listener and returns this. -/
def onClickM (st : SysTrayState) : SysTrayState × JsRef :=
  ({ st with clickListeners := st.clickListeners + 1 }, JsRef.this)

/-- Method writeLine: runs the guarded body and, when the body did not
throw, reaches return this; a throw propagates to the caller and the
return statement is never executed. -/
def writeLineM (st : SysTrayState) (line : String) :
    SysTrayState × Except JsError JsRef :=
  match writeLine line with
  | Except.ok w => ({ st with out := st.out ++ w }, Except.ok JsRef.this)
  | Except.error e => (st, Except.error e)

/-- Method sendAction: rewrites the action and calls writeLine on the
encoded text; only when that call did not throw is return this reached. -/
def sendActionM (platform : Platform) (st : SysTrayState) (a : Action) :
    SysTrayState × Except JsError JsRef :=
  match (sendAction platform a).2 with
  | Except.ok w => ({ st with out := st.out ++ w }, Except.ok JsRef.this)
  | Except.error e => (st, Except.error e)

/-- Initial menu of the bootstrap scenario of the spec. -/
def testMenu : Menu :=
  Menu.mk "i" "T" "tt" [MenuItem.mk "A" "" false true]

/-- The inbound ready line of the scenario. -/
def readyLine : String := "\x7b\"type\":\"ready\"\x7d"

/-- Helper: appending anything to a nonempty string stays nonempty. -/
theorem append_ne_empty_left (s t : String) (h : s ≠ "") : s ++ t ≠ "" := by
  cases s with
  | mk d =>
    cases t with
    | mk e =>
      cases d with
      | nil => exact absurd rfl h
      | cons c cs =>
        intro h2
        exact List.noConfusion (congrArg String.data h2)

/-- Helper: every encoded action starts with an opening brace, so the
string handed to writeLine by sendAction is always truthy. -/
theorem encodeAction_ne_empty (a : Action) : encodeAction a ≠ "" := by
  cases a <;>
    · simp only [encodeAction]
      repeat apply append_ne_empty_left
      decide

/-- Helper: every encoded menu starts with an opening brace, so the string
handed to writeLine by the bootstrap listener is always truthy. -/
theorem encodeMenu_ne_empty (m : Menu) : encodeMenu m ≠ "" := by
  simp only [encodeMenu]
  repeat apply append_ne_empty_left
  decide

/-- Helper: writeLine on any truthy argument throws the TypeError. -/
theorem writeLine_truthy_faults (s : String) (h : s ≠ "") :
    writeLine s = Except.error JsError.typeFault := by
  simp [writeLine, h]

/-- Helper: sendAction always reaches writeLine with a truthy string, so
its write always throws and no wire output is ever produced. -/
theorem sendAction_always_faults (p : Platform) (a : Action) :
    (sendAction p a).2 = Except.error JsError.typeFault := by
  have h := encodeAction_ne_empty (sendActionTransform p a)
  simp [sendAction, writeLine_truthy_faults _ h]

/-- Helper: the bootstrap listener always throws and never emits. -/
theorem bootstrapListener_faults (m : Menu) :
    bootstrapListener m = Except.error JsError.typeFault := by
  have h := encodeMenu_ne_empty m
  simp [bootstrapListener, writeLine_truthy_faults _ h]

/-- Claim C1 (refuted, code bug): on linux the checked rule is not
idempotent. Applied once to the item with title A and checked true it
yields title "A (√)"; applied a second time with checked unchanged it
appends the marker again, yielding "A (√) (√)", a double-appended marker,
so applying twice differs from applying once. -/
theorem c1_double_marker_on_reapply :
    updateCheckedInLinux Platform.linux
        (updateCheckedInLinux Platform.linux (MenuItem.mk "A" "" true true))
      = MenuItem.mk "A (√) (√)" "" true true
    ∧ updateCheckedInLinux Platform.linux
        (updateCheckedInLinux Platform.linux (MenuItem.mk "A" "" true true))
      ≠ updateCheckedInLinux Platform.linux (MenuItem.mk "A" "" true true) :=
  ⟨rfl, by decide⟩

/-- Claim C2 (refuted, code bug): the strip branch never removes the
appended marker, because the regular expression is built from CHECK_STR
without escaping, so it matches a trailing " √" instead of the literal
" (√)". Appending to title A with checked true and then applying the rule
with checked false leaves the title at "A (√)", not the original "A"; what
the rule does strip is a trailing " √". -/
theorem c2_marker_never_stripped :
    updateCheckedInLinux Platform.linux
        { updateCheckedInLinux Platform.linux (MenuItem.mk "A" "" true true)
            with checked := false }
      = MenuItem.mk "A (√)" "" false true
    ∧ (MenuItem.mk "A (√)" "" false true).title ≠ "A"
    ∧ updateCheckedInLinux Platform.linux (MenuItem.mk "A √" "" false true)
      = MenuItem.mk "A" "" false true :=
  ⟨rfl, by decide, rfl⟩

/-- Claim C3 (refuted, code bug): sendAction does apply the linux checked
rule to every contained item before encoding — the scenario action is
rewritten to item title "B (√)" with seq_id 7 — but the wire line is never
produced: writeLine throws the TypeError before stdin.write on the truthy
encoded string. The final conjunct shows that no sendAction call, on any
platform and any action, ever gets a wire line written. -/
theorem c3_rule_applied_wire_never_written :
    (∀ (p : Platform) (i : MenuItem) (s : Int),
       sendActionTransform p (Action.updateItem i s)
         = Action.updateItem (updateCheckedInLinux p i) s)
    ∧ (∀ (p : Platform) (m : Menu) (s : Int),
       sendActionTransform p (Action.updateMenu m s)
         = Action.updateMenu
             { m with items := m.items.map (updateCheckedInLinux p) } s)
    ∧ (∀ (p : Platform) (m : Menu) (i : MenuItem) (s : Int),
       sendActionTransform p (Action.updateMenuAndItem m i s)
         = Action.updateMenuAndItem
             { m with items := m.items.map (updateCheckedInLinux p) }
             (updateCheckedInLinux p i) s)
    ∧ sendAction Platform.linux (Action.updateItem (MenuItem.mk "B" "" true true) 7)
        = (Action.updateItem (MenuItem.mk "B (√)" "" true true) 7,
           Except.error JsError.typeFault)
    ∧ ∀ (p : Platform) (a : Action),
        (sendAction p a).2 = Except.error JsError.typeFault :=
  ⟨fun _ _ _ => rfl, fun _ _ _ => rfl, fun _ _ _ _ => rfl, rfl,
   fun p a => sendAction_always_faults p a⟩

/-- Claim C4 (refuted, code bug): the line handlers registered by onReady
and onClick call JSON.parse with no exception handling, so a line that is
not valid JSON raises an uncaught fault in both, and the session run aborts
on it: a later well-formed ready line is never processed. -/
theorem c4_malformed_line_uncaught_fault :
    readyLineHandler (constructedMenu Platform.linux testMenu) "not json"
      = Except.error JsError.parseFail
    ∧ clickLineHandler "not json" = Except.error JsError.parseFail
    ∧ runSession Platform.linux testMenu ["not json", readyLine]
      = Except.error JsError.parseFail :=
  ⟨rfl, rfl, rfl⟩

/-- Claim C5 (refuted, code bug): the bootstrap menu is never emitted at
all. On the first ready line the constructor-registered listener calls
writeLine on the encoded menu, a truthy string, so it throws the TypeError
inside the line handler; the session aborts on that very line with nothing
written. The final conjunct shows the bootstrap listener throws for every
menu. -/
theorem c5_bootstrap_never_emitted :
    bootstrapListener (constructedMenu Platform.linux testMenu)
      = Except.error JsError.typeFault
    ∧ readyLineHandler (constructedMenu Platform.linux testMenu) readyLine
      = Except.error JsError.typeFault
    ∧ runSession Platform.linux testMenu [readyLine]
      = Except.error JsError.typeFault
    ∧ ∀ m : Menu, bootstrapListener m = Except.error JsError.typeFault :=
  ⟨rfl, rfl, rfl, fun m => bootstrapListener_faults m⟩

/-- Claim C6 (refuted, code bug): writeLine never performs a write for any
argument. The empty string fails the truthiness guard and is a silent
no-op; three spaces and " x " pass the guard and throw the TypeError
before stdin.write, so zero bytes are written where the claim requires the
trimmed text plus a newline to be written ("x" plus newline for " x ").
The final conjunct shows every call either writes nothing or throws. -/
theorem c6_truthy_write_faults :
    writeLine "" = Except.ok []
    ∧ writeLine "   " = Except.error JsError.typeFault
    ∧ writeLine " x " = Except.error JsError.typeFault
    ∧ ∀ s : String,
        writeLine s = Except.ok [] ∨ writeLine s = Except.error JsError.typeFault := by
  refine ⟨rfl, rfl, rfl, fun s => ?_⟩
  by_cases h : s = ""
  · exact Or.inl (by simp [writeLine, h])
  · exact Or.inr (writeLine_truthy_faults s h)

/-- Claim C7 (confirmed): kill never raises, whatever the state of the
child, so calling kill false twice in succession raises no error on the
second call, also when the child exited in between, and the killed query
returns true right after the first call. -/
theorem c7_kill_twice_no_error :
    (∀ st : ProcState, isOkB (kill false st) = true)
    ∧ kill false spawnState = Except.ok (killResult false spawnState)
    ∧ killed (killResult false spawnState) = true
    ∧ isOkB (kill false (killResult false spawnState)) = true
    ∧ isOkB (kill false (observeExit (killResult false spawnState))) = true :=
  ⟨fun _ => rfl, rfl, rfl, rfl, rfl⟩

/-- Claim C8 counterexample: for a child that exits on its own, with no
kill call, the exit has been observed and yet the killed query returns
false, so killed does not reflect observed exit. -/
theorem c8_self_exit_killed_false :
    killed (observeExit spawnState) = false
    ∧ (observeExit spawnState).exited = true :=
  ⟨rfl, rfl⟩

/-- Claim C8 (amended): the killed query returns the signal-sent flag of
the Node child process object, not observed exit: it equals signalSent in
every state, it turns true after a kill issued while the child is live even
though exit has not been observed at that point. -/
theorem c8_killed_tracks_signal :
    (∀ st : ProcState, killed st = st.signalSent)
    ∧ (∀ (en : Bool) (st st2 : ProcState),
        kill en st = Except.ok st2 → st.exited = false → killed st2 = true)
    ∧ killed (killResult false spawnState) = true
    ∧ (killResult false spawnState).exited = false := by
  refine ⟨fun _ => rfl, ?_, rfl, rfl⟩
  intro en st st2 h hex
  have h2 : killResult en st = st2 := by injection h
  subst h2
  simp [killed, killResult, hex]

/-- Claim C8 witness: instantiating the amended statement at the freshly
spawned state. -/
theorem c8_killed_tracks_signal_witness :
    killed (killResult false spawnState) = true :=
  c8_killed_tracks_signal.2.1 false spawnState (killResult false spawnState)
    rfl rfl

/-- Claim C9 counterexample: on linux the rule assigns to the title field
of the very object the caller passed in, so after the call the caller's
item no longer equals its original value. -/
theorem c9_linux_mutates_caller_item :
    (updateCheckedInLinuxCall Platform.linux (MenuItem.mk "A" "" true true)).2
      ≠ MenuItem.mk "A" "" true true := by
  decide

/-- Claim C9 (amended): on every platform other than linux the rule returns
the item unchanged and leaves the caller's object untouched; on linux it
returns the caller's own object after rewriting its title in place, so the
caller's view after the call is the rewritten item. -/
theorem c9_pure_amended :
    (∀ (p : Platform) (item : MenuItem), p ≠ Platform.linux →
        updateCheckedInLinuxCall p item = (item, item))
    ∧ ∀ item : MenuItem,
        (updateCheckedInLinuxCall Platform.linux item).2
          = updateCheckedInLinux Platform.linux item := by
  refine ⟨fun p item h => ?_, fun item => rfl⟩
  simp [updateCheckedInLinuxCall, updateCheckedInLinux, h]

/-- Claim C9 witness: instantiating the amended statement on darwin. -/
theorem c9_pure_amended_witness :
    updateCheckedInLinuxCall Platform.darwin (MenuItem.mk "A" "" true true)
      = (MenuItem.mk "A" "" true true, MenuItem.mk "A" "" true true) :=
  c9_pure_amended.1 Platform.darwin (MenuItem.mk "A" "" true true) (by decide)

/-- Claim C10 counterexample: writeLine with the truthy argument "x"
throws the TypeError before reaching return this, so its outcome is an
error, which is not a returned receiver. -/
theorem c10_writeLine_throws_counterexample :
    (writeLineM (SysTrayState.mk 0 0 []) "x").2
      = Except.error JsError.typeFault
    ∧ (Except.error JsError.typeFault : Except JsError JsRef)
      ≠ Except.ok JsRef.this :=
  ⟨rfl, fun h => Except.noConfusion h⟩

/-- Claim C10 (amended): onReady and onClick return the receiver object
for every input; writeLine reaches return this exactly when its argument
is the falsy empty string; for every truthy argument writeLine throws
before its return, and sendAction, whose encoded text is always truthy,
throws on every action, so neither returns anything there. -/
theorem c10_chaining_amended :
    (∀ st : SysTrayState, (onReadyM st).2 = JsRef.this)
    ∧ (∀ st : SysTrayState, (onClickM st).2 = JsRef.this)
    ∧ (∀ st : SysTrayState, (writeLineM st "").2 = Except.ok JsRef.this)
    ∧ (∀ (st : SysTrayState) (line : String), line ≠ "" →
        (writeLineM st line).2 = Except.error JsError.typeFault)
    ∧ ∀ (p : Platform) (st : SysTrayState) (a : Action),
        (sendActionM p st a).2 = Except.error JsError.typeFault := by
  refine ⟨fun _ => rfl, fun _ => rfl, fun _ => rfl, ?_, ?_⟩
  · intro st line h
    simp [writeLineM, writeLine_truthy_faults line h]
  · intro p st a
    simp [sendActionM, sendAction_always_faults p a]

/-- Claim C10 witness: instantiating the amended statement at a concrete
state and truthy argument. -/
theorem c10_chaining_amended_witness :
    (writeLineM (SysTrayState.mk 0 0 []) "y").2
      = Except.error JsError.typeFault :=
  c10_chaining_amended.2.2.2.1 (SysTrayState.mk 0 0 []) "y" (by decide)

end NodeSystray
